import Mathlib

/-!
A shallow embedding of `src/internal/knot/knot_resolver.c`, the recursive
DNS resolver core of this repository.  The libknot message codec and the
UDP network are external collaborators of that file; they are modelled as
oracle parameters (`Codec`, `Net`), while every piece of control flow and
every data field of the C file is translated directly.
-/

namespace KnotResolver

/-- KNOT_RRTYPE_OPT, the EDNS0 OPT pseudo-record type code used at line 179. -/
def KNOT_RRTYPE_OPT : Nat := 41

/-- KNOT_RRTYPE_RRSIG, the signature record type code used at line 229. -/
def KNOT_RRTYPE_RRSIG : Nat := 46

/-- The receive timeout in seconds set via SO_RCVTIMEO in send_dns_query
(lines 128-131): timeout.tv_sec = 5, timeout.tv_usec = 0. -/
def recv_timeout_sec : Nat := 5

/-- Size of the stack response buffer in recursive_resolve (line 187):
uint8_t response[4096]. -/
def RESPONSE_BUF_SIZE : Nat := 4096

/-- The fixed root server array (lines 27-42); the terminating NULL entry of
the C array is represented by the end of the list. -/
def root_servers : List String :=
  [ "198.41.0.4",
    "199.9.14.201",
    "192.33.4.12",
    "199.7.91.13",
    "192.203.230.10",
    "192.5.5.241",
    "192.112.36.4",
    "198.97.190.53",
    "192.36.148.17",
    "192.58.128.30",
    "193.0.14.129",
    "199.7.83.42",
    "202.12.27.33" ]

/-- The DNS type-to-string table (lines 45-65); the {0, NULL} sentinel is
represented by the end of the list. -/
def qtype_map : List (Nat × String) :=
  [ (1, "A"),
    (2, "NS"),
    (5, "CNAME"),
    (6, "SOA"),
    (12, "PTR"),
    (15, "MX"),
    (16, "TXT"),
    (28, "AAAA"),
    (33, "SRV"),
    (43, "DS"),
    (46, "RRSIG"),
    (47, "NSEC"),
    (48, "DNSKEY"),
    (50, "NSEC3"),
    (51, "NSEC3PARAM") ]

/-- The DNS class-to-string table (lines 68-76). -/
def qclass_map : List (Nat × String) :=
  [ (1, "IN"),
    (3, "CH"),
    (4, "HS") ]

/-- The linear first-match-wins scan shared by knot_qtype_to_string and
knot_qclass_to_string (lines 319-323 and 328-332). -/
def lookupName : List (Nat × String) → Nat → String
  | [], _ => "UNKNOWN"
  | (t, n) :: rest, code => if t = code then n else lookupName rest code

/-- knot_qtype_to_string (lines 318-325). -/
def knot_qtype_to_string (qtype : Nat) : String :=
  lookupName qtype_map qtype

/-- knot_qclass_to_string (lines 327-334). -/
def knot_qclass_to_string (qclass : Nat) : String :=
  lookupName qclass_map qclass

/-- knot_resolve_result_t (knot_resolver.h lines 49-56).  The wire pointer is
an optional byte list; wire_size mirrors the C size field. -/
structure ResolveResult where
  wire : Option (List Nat)
  wire_size : Nat
  rcode : Nat
  secure : Bool
  bogus : Bool
  error_msg : Option String
deriving DecidableEq, Repr

/-- knot_resolver_t (knot_resolver.h lines 61-66); the mm field is an
allocator handle with no observable behavior and is omitted. -/
structure Resolver where
  dnssec_enabled : Bool
  timeout_ms : Nat
  root_hints : Option String
deriving DecidableEq, Repr

/-- create_error_result (lines 79-91): wire NULL, wire_size 0, rcode 2
(SERVFAIL), secure false, bogus false, error_msg a copy of the argument. -/
def create_error_result (error_msg : Option String) : ResolveResult :=
  { wire := none
    wire_size := 0
    rcode := 2
    secure := false
    bogus := false
    error_msg := error_msg }

/-- create_success_result (lines 94-112): wire copied, wire_size set, rcode,
secure and bogus as passed, error_msg NULL. -/
def create_success_result (wire : List Nat) (rcode : Nat) (secure bogus : Bool) : ResolveResult :=
  { wire := some wire
    wire_size := wire.length
    rcode := rcode
    secure := secure
    bogus := bogus
    error_msg := none }

/-- The query packet assembled in recursive_resolve lines 154-184: the
question inserted by knot_pkt_put_question, the header flags set by
knot_wire_clear_qr / knot_wire_set_rd, the transaction id from
rand() & 0xFFFF, and the list of record types added via knot_pkt_put. -/
structure QueryPkt where
  qname : String
  qtype : Nat
  qclass : Nat
  qr : Bool
  rd : Bool
  txid : Nat
  rrs : List Nat
deriving DecidableEq, Repr

/-- The view of a parsed response packet that recursive_resolve reads after
knot_pkt_parse succeeds: the header rcode (knot_wire_get_rcode, line 218),
the record type codes of each packet section (lines 225-235), and the wire
bytes with their size as handed to create_success_result (line 238). -/
structure ParsedPkt where
  rcode : Nat
  sections : List (List Nat)
  wire : List Nat
deriving DecidableEq, Repr

/-- Oracle for the external libknot message codec: success of each fallible
codec call recursive_resolve makes, and the parse function.  pktNewOk models
knot_pkt_new(NULL, 512, mm) at line 154; dnameOk models whether
knot_dname_from_str_alloc accepts a given name (line 160); putQuestionOk
models knot_pkt_put_question == KNOT_EOK (line 167); optRrOk models
knot_rrset_new returning non-NULL (line 179); optPutOk models knot_pkt_put
succeeding for the OPT record (line 183); respPktNewOk models
knot_pkt_new(response, response_len, mm) at line 204; parse models
knot_pkt_parse plus the header/section accessors (lines 211-235). -/
structure Codec where
  pktNewOk : Bool
  dnameOk : String → Bool
  putQuestionOk : Bool
  optRrOk : Bool
  optPutOk : Bool
  respPktNewOk : Bool
  parse : List Nat → Option ParsedPkt

/-- Oracle for the UDP network: given server ip, port, the query sent and
the receive timeout in seconds, either the datagram that arrives or none
when the socket/send/receive path of send_dns_query fails. -/
def Net : Type :=
  String → Nat → QueryPkt → Nat → Option (List Nat)

/-- The query construction of recursive_resolve, lines 154-184.  Each
failure returns the create_error_result message of the corresponding C
early return.  The OPT record is appended when knot_rrset_new and
knot_pkt_put succeed; nothing in this construction reads the resolver
context (in the C code only resolver->mm, the allocator, is passed). -/
def buildQuery (c : Codec) (rnd : Nat) (qname : String) (qtype qclass : Nat) :
    Except String QueryPkt :=
  if c.pktNewOk = false then .error "Failed to create query packet"
  else if c.dnameOk qname = false then .error "Invalid domain name"
  else if c.putQuestionOk = false then .error "Failed to create query"
  else .ok
    { qname := qname
      qtype := qtype
      qclass := qclass
      qr := false
      rd := true
      txid := rnd % 65536
      rrs := if c.optRrOk then (if c.optPutOk then [KNOT_RRTYPE_OPT] else []) else [] }

/-- send_dns_query (lines 115-149): one datagram out, one blocking receive
with the fixed recv_timeout_sec timeout, the received bytes truncated to the
caller's buffer size; none on any socket/send/receive failure.  On failure
the caller's response_len is left untouched (the C function writes
*response_len only after a successful recvfrom, line 147). -/
def send_dns_query (net : Net) (server_ip : String) (port : Nat)
    (query : QueryPkt) (response_len : Nat) : Option (List Nat) :=
  (net server_ip port query recv_timeout_sec).map (fun d => d.take response_len)

/-- The root-server loop of recursive_resolve (lines 190-195): try each
server in order, stop at the first send_dns_query success.  Returns the
accepted datagram (if any) and the list of servers contacted.  Because the
loop breaks at the first success, response_len is still RESPONSE_BUF_SIZE
at every attempt. -/
def attemptLoop (net : Net) (query : QueryPkt) : List String → Option (List Nat) × List String
  | [] => (none, [])
  | ip :: rest =>
    match send_dns_query net ip 53 query RESPONSE_BUF_SIZE with
    | some d => (some d, [ip])
    | none =>
      let r := attemptLoop net query rest
      (r.1, ip :: r.2)

/-- The value of response_len after the loop (line 197): the received count
if some server succeeded, otherwise the initial sizeof(response) = 4096 —
send_dns_query never writes it on failure. -/
def response_len_after (net : Net) (query : QueryPkt) : Nat :=
  match (attemptLoop net query root_servers).1 with
  | some d => d.length
  | none => RESPONSE_BUF_SIZE

/-- The first response_len bytes of the response buffer after the loop, as
handed to knot_pkt_new at line 204: the accepted datagram if some server
succeeded, otherwise 4096 bytes of the uninitialized stack buffer
(modelled by the garbage parameter). -/
def response_buf_after (net : Net) (query : QueryPkt) (garbage : List Nat) : List Nat :=
  match (attemptLoop net query root_servers).1 with
  | some d => d
  | none => garbage.take RESPONSE_BUF_SIZE

/-- True when some section of the parsed response holds a record of type
KNOT_RRTYPE_RRSIG — the scan of lines 225-235 (its early breaks do not
change the computed value). -/
def hasRRSIG (sections : List (List Nat)) : Bool :=
  sections.any (fun s => s.any (fun t => t = KNOT_RRTYPE_RRSIG))

/-- Observable outcome of one resolution call: the result, the servers
contacted in order, and the query packet that was built (none when query
construction failed before the network was touched). -/
structure ResolveTrace where
  result : ResolveResult
  contacted : List String
  builtQuery : Option QueryPkt
deriving DecidableEq, Repr

/-- recursive_resolve (lines 152-246).  rnd models the rand() call at line
176; garbage models the uninitialized stack response buffer of line 187. -/
def recursive_resolve (c : Codec) (net : Net) (garbage : List Nat) (resolver : Resolver)
    (rnd : Nat) (qname : String) (qtype qclass : Nat) : ResolveTrace :=
  match buildQuery c rnd qname qtype qclass with
  | .error msg => ⟨create_error_result (some msg), [], none⟩
  | .ok qp =>
    let contacted := (attemptLoop net qp root_servers).2
    if response_len_after net qp = 0 then
      ⟨create_error_result (some "No response from root servers"), contacted, some qp⟩
    else if c.respPktNewOk = false then
      ⟨create_error_result (some "Failed to create response packet"), contacted, some qp⟩
    else
      match c.parse (response_buf_after net qp garbage) with
      | none => ⟨create_error_result (some "Failed to parse response"), contacted, some qp⟩
      | some pkt =>
        ⟨create_success_result pkt.wire pkt.rcode
          (resolver.dnssec_enabled && hasRRSIG pkt.sections) false, contacted, some qp⟩

/-- knot_resolver_resolve (lines 291-302): the NULL-resolver / NULL-qname
guard, then recursive_resolve.  The C pointers are modelled as options. -/
def knot_resolver_resolve (c : Codec) (net : Net) (garbage : List Nat) (rnd : Nat)
    (resolver : Option Resolver) (qname : Option String) (qtype qclass : Nat) : ResolveTrace :=
  match resolver, qname with
  | some r, some q => recursive_resolve c net garbage r rnd q qtype qclass
  | _, _ => ⟨create_error_result (some "Invalid parameters"), [], none⟩

/-- The deallocation steps knot_resolve_result_free can perform. -/
inductive FreeAction where
  | freeWire
  | freeErrorMsg
  | freeResult
deriving DecidableEq, Repr

/-- knot_resolve_result_free (lines 304-316), as the sequence of free()
calls it performs: nothing on a NULL result; otherwise the wire buffer and
the error message each only when present, then the result itself. -/
def knot_resolve_result_free : Option ResolveResult → List FreeAction
  | none => []
  | some r =>
    (if r.wire.isSome then [FreeAction.freeWire] else []) ++
    (if r.error_msg.isSome then [FreeAction.freeErrorMsg] else []) ++
    [FreeAction.freeResult]

/-- The success terminal variant of a result: error message absent and the
wire buffer, its size and the rcode all taken from a response the codec
parsed. -/
def successVariant (c : Codec) (res : ResolveResult) : Prop :=
  res.error_msg = none ∧
  ∃ buf pkt, c.parse buf = some pkt ∧ res.wire = some pkt.wire ∧
    res.wire_size = pkt.wire.length ∧ res.rcode = pkt.rcode

/-- The error terminal variant of a result: wire absent, wire_size 0, rcode
fixed to SERVFAIL(2), error message present. -/
def errorVariant (res : ResolveResult) : Prop :=
  res.wire = none ∧ res.wire_size = 0 ∧ res.rcode = 2 ∧ res.error_msg ≠ none

/-- A codec whose fallible allocation/insertion calls all succeed, whose
name encoding rejects exactly the empty string (as libknot's
knot_dname_from_str does), and whose parse rejects every buffer. -/
def parseFailCodec : Codec :=
  { pktNewOk := true
    dnameOk := fun s => !s.isEmpty
    putQuestionOk := true
    optRrOk := true
    optPutOk := true
    respPktNewOk := true
    parse := fun _ => none }

/-- Like parseFailCodec but parsing every buffer into a packet whose only
record is one RRSIG in the first section. -/
def rrsigCodec : Codec :=
  { pktNewOk := true
    dnameOk := fun s => !s.isEmpty
    putQuestionOk := true
    optRrOk := true
    optPutOk := true
    respPktNewOk := true
    parse := fun buf => some ⟨0, [[KNOT_RRTYPE_RRSIG]], buf⟩ }

/-- A network on which every attempt fails. -/
def netAllFail : Net := fun _ _ _ _ => none

/-- A network on which the first root server answers with a zero-length
datagram and all others fail. -/
def netFirstEmpty : Net :=
  fun ip _ _ _ => if ip = "198.41.0.4" then some [] else none

/-- A network on which the first root server answers with a three-byte
datagram and all others fail. -/
def netFirstOk : Net :=
  fun ip _ _ _ => if ip = "198.41.0.4" then some [1, 2, 3] else none

/-- A network on which the first root server fails and the second answers. -/
def netSecondOk : Net :=
  fun ip _ _ _ => if ip = "199.9.14.201" then some [7] else none

/-- The query packet buildQuery produces for ("example.com", 1, 1) with a
fully succeeding codec and rnd = 0. -/
def exampleQuery : QueryPkt :=
  { qname := "example.com"
    qtype := 1
    qclass := 1
    qr := false
    rd := true
    txid := 0
    rrs := [KNOT_RRTYPE_OPT] }

/- ===================== helper lemmas ===================== -/

theorem lookupName_not_mem (tbl : List (Nat × String)) (code : Nat)
    (hc : code ∉ tbl.map Prod.fst) : lookupName tbl code = "UNKNOWN" := by
  induction tbl with
  | nil => rfl
  | cons p rest ih =>
    obtain ⟨t, n⟩ := p
    simp only [List.map_cons, List.mem_cons] at hc
    push_neg at hc
    simp only [lookupName, if_neg (fun h : t = code => hc.1 h.symm)]
    exact ih hc.2

theorem attemptLoop_all_fail (net : Net) (qp : QueryPkt) (l : List String)
    (h : ∀ ip ∈ l, net ip 53 qp recv_timeout_sec = none) :
    attemptLoop net qp l = (none, l) := by
  induction l with
  | nil => rfl
  | cons ip rest ih =>
    have h1 : net ip 53 qp recv_timeout_sec = none := h ip (List.mem_cons_self ip rest)
    have h2 : attemptLoop net qp rest = (none, rest) :=
      ih (fun x hx => h x (List.mem_cons_of_mem _ hx))
    simp [attemptLoop, send_dns_query, h1, h2]

theorem attemptLoop_first_success (net : Net) (qp : QueryPkt) (l₁ l₂ : List String)
    (ip : String) (d : List Nat)
    (hfail : ∀ x ∈ l₁, net x 53 qp recv_timeout_sec = none)
    (hsucc : net ip 53 qp recv_timeout_sec = some d) :
    attemptLoop net qp (l₁ ++ ip :: l₂) =
      (some (d.take RESPONSE_BUF_SIZE), l₁ ++ [ip]) := by
  induction l₁ with
  | nil => simp [attemptLoop, send_dns_query, hsucc]
  | cons x rest ih =>
    have h1 : net x 53 qp recv_timeout_sec = none := hfail x (List.mem_cons_self x rest)
    have h2 := ih (fun y hy => hfail y (List.mem_cons_of_mem _ hy))
    simp [attemptLoop, send_dns_query, h1, h2]

theorem take_getD_drop {α : Type} (x : α) (l : List α) (k : Nat) (hk : k < l.length) :
    l.take k ++ l.getD k x :: l.drop (k + 1) = l := by
  induction l generalizing k with
  | nil => simp at hk
  | cons a t ih =>
    cases k with
    | zero => simp [List.getD]
    | succ k =>
      have hk' : k < t.length := by simpa using hk
      simpa [List.getD] using ih k hk'

theorem take_succ_getD {α : Type} (x : α) (l : List α) (k : Nat) (hk : k < l.length) :
    l.take (k + 1) = l.take k ++ [l.getD k x] := by
  induction l generalizing k with
  | nil => simp at hk
  | cons a t ih =>
    cases k with
    | zero => simp [List.getD]
    | succ k =>
      have hk' : k < t.length := by simpa using hk
      simp [List.getD, ih k hk']

theorem recursive_resolve_contacted (c : Codec) (net : Net) (g : List Nat)
    (resolver : Resolver) (rnd : Nat) (q : String) (qt qc : Nat) (qp : QueryPkt)
    (hb : buildQuery c rnd q qt qc = .ok qp) :
    (recursive_resolve c net g resolver rnd q qt qc).contacted =
      (attemptLoop net qp root_servers).2 := by
  unfold recursive_resolve
  rw [hb]
  simp only
  split
  · rfl
  · split
    · rfl
    · split <;> rfl

theorem recursive_resolve_builtQuery (c : Codec) (net : Net) (g : List Nat)
    (resolver : Resolver) (rnd : Nat) (q : String) (qt qc : Nat) :
    (recursive_resolve c net g resolver rnd q qt qc).builtQuery =
      (buildQuery c rnd q qt qc).toOption := by
  unfold recursive_resolve
  cases hb : buildQuery c rnd q qt qc with
  | error msg => rfl
  | ok qp =>
    simp only
    split
    · rfl
    · split
      · rfl
      · split <;> rfl

theorem recursive_resolve_cases (c : Codec) (net : Net) (g : List Nat)
    (resolver : Resolver) (rnd : Nat) (q : String) (qt qc : Nat) :
    (∃ msg, (recursive_resolve c net g resolver rnd q qt qc).result =
        create_error_result (some msg)) ∨
    (∃ buf pkt s, c.parse buf = some pkt ∧
        (recursive_resolve c net g resolver rnd q qt qc).result =
          create_success_result pkt.wire pkt.rcode s false) := by
  unfold recursive_resolve
  cases hb : buildQuery c rnd q qt qc with
  | error msg => exact .inl ⟨msg, rfl⟩
  | ok qp =>
    simp only
    split
    · exact .inl ⟨"No response from root servers", rfl⟩
    · split
      · exact .inl ⟨"Failed to create response packet", rfl⟩
      · cases hp : c.parse (response_buf_after net qp g) with
        | none => exact .inl ⟨"Failed to parse response", rfl⟩
        | some pkt =>
          exact .inr ⟨response_buf_after net qp g, pkt,
            resolver.dnssec_enabled && hasRRSIG pkt.sections, hp, rfl⟩

theorem resolve_cases (c : Codec) (net : Net) (g : List Nat) (rnd : Nat)
    (resolver : Option Resolver) (qname : Option String) (qt qc : Nat) :
    (∃ msg, (knot_resolver_resolve c net g rnd resolver qname qt qc).result =
        create_error_result (some msg)) ∨
    (∃ buf pkt s, c.parse buf = some pkt ∧
        (knot_resolver_resolve c net g rnd resolver qname qt qc).result =
          create_success_result pkt.wire pkt.rcode s false) := by
  cases resolver with
  | none => exact .inl ⟨"Invalid parameters", rfl⟩
  | some r =>
    cases qname with
    | none => exact .inl ⟨"Invalid parameters", rfl⟩
    | some q => exact recursive_resolve_cases c net g r rnd q qt qc

/- ===================== claim theorems ===================== -/

/-- C1.  The claim says that when every root-server Transport attempt fails,
Resolve returns the error "No response from root servers".  The code does
not: send_dns_query writes *response_len only on success, so after a loop in
which every server fails response_len still holds its initial 4096 and the
zero-length check misses; the 4096 uninitialized stack bytes are parsed
instead.  Here, with a transport that always fails and a codec that rejects
the garbage buffer, the result is "Failed to parse response", every root
server was contacted, and only the zero-length-datagram half of the claim
produces the claimed error. -/
theorem knot_allfail_divergence :
    (knot_resolver_resolve parseFailCodec netAllFail (List.replicate RESPONSE_BUF_SIZE 0) 0
        (some ⟨false, 5000, none⟩) (some "example.com") 1 1).result.error_msg =
      some "Failed to parse response" ∧
    (knot_resolver_resolve parseFailCodec netAllFail (List.replicate RESPONSE_BUF_SIZE 0) 0
        (some ⟨false, 5000, none⟩) (some "example.com") 1 1).result.error_msg ≠
      some "No response from root servers" ∧
    (knot_resolver_resolve parseFailCodec netAllFail (List.replicate RESPONSE_BUF_SIZE 0) 0
        (some ⟨false, 5000, none⟩) (some "example.com") 1 1).contacted = root_servers ∧
    (knot_resolver_resolve parseFailCodec netFirstEmpty [] 0
        (some ⟨false, 5000, none⟩) (some "example.com") 1 1).result =
      create_error_result (some "No response from root servers") := by
  refine ⟨rfl, by decide, rfl, rfl⟩

/-- C2.  Every result of Resolve lies in exactly one of the two terminal
variants: wire present with the rcode and bytes of a codec-parsed response
and no error message, or wire absent with wire_size 0, rcode SERVFAIL(2)
and an error message present. -/
theorem knot_result_two_variants (c : Codec) (net : Net) (g : List Nat) (rnd : Nat)
    (resolver : Option Resolver) (qname : Option String) (qt qc : Nat) :
    Xor' (successVariant c (knot_resolver_resolve c net g rnd resolver qname qt qc).result)
      (errorVariant (knot_resolver_resolve c net g rnd resolver qname qt qc).result) := by
  rcases resolve_cases c net g rnd resolver qname qt qc with ⟨msg, h⟩ | ⟨buf, pkt, s, hp, h⟩
  · refine Or.inr ⟨?_, ?_⟩
    · rw [h]
      exact ⟨rfl, rfl, rfl, by simp [create_error_result]⟩
    · rw [h]
      rintro ⟨he, -⟩
      simp [create_error_result] at he
  · refine Or.inl ⟨?_, ?_⟩
    · rw [h]
      exact ⟨rfl, buf, pkt, hp, rfl, rfl, rfl⟩
    · rw [h]
      rintro ⟨hw, -⟩
      simp [create_success_result] at hw

/-- C3.  On the path where a response was accepted and parsed into pkt, the
result's secure flag equals dnssec_enabled && (some section of pkt holds an
RRSIG record): true exactly when DNSSEC is enabled and a signature record is
present, false otherwise. -/
theorem knot_secure_iff_rrsig (c : Codec) (net : Net) (g : List Nat) (resolver : Resolver)
    (rnd : Nat) (q : String) (qt qc : Nat) (qp : QueryPkt) (pkt : ParsedPkt)
    (hb : buildQuery c rnd q qt qc = .ok qp)
    (hlen : response_len_after net qp ≠ 0)
    (hnew : c.respPktNewOk = true)
    (hp : c.parse (response_buf_after net qp g) = some pkt) :
    (recursive_resolve c net g resolver rnd q qt qc).result.secure =
      (resolver.dnssec_enabled && hasRRSIG pkt.sections) := by
  unfold recursive_resolve
  rw [hb]
  simp only
  rw [if_neg hlen, if_neg (by simp [hnew]), hp]
  rfl

/-- C3 witness: a response whose first section holds one RRSIG record, with
dnssec_enabled = true, yields secure = true. -/
theorem knot_secure_iff_rrsig_witness :
    (recursive_resolve rrsigCodec netFirstOk [] ⟨true, 5000, none⟩ 0 "example.com" 1 1).result.secure
      = true := by
  have h := knot_secure_iff_rrsig rrsigCodec netFirstOk [] ⟨true, 5000, none⟩ 0 "example.com" 1 1
    exampleQuery ⟨0, [[KNOT_RRTYPE_RRSIG]], [1, 2, 3]⟩ rfl (by decide) rfl (by decide)
  rw [h]
  decide

/-- C4.  The root-server list has exactly 13 entries and, when the first k
servers' Transport attempts fail and server k succeeds, the servers
contacted are exactly the first k+1 of the declared list in order, each
once, and no server after the k-th is ever contacted. -/
theorem knot_first_success_stops (c : Codec) (net : Net) (g : List Nat) (resolver : Resolver)
    (rnd : Nat) (q : String) (qt qc : Nat) (qp : QueryPkt) (k : Nat) (d : List Nat)
    (hb : buildQuery c rnd q qt qc = .ok qp)
    (hk : k < root_servers.length)
    (hfail : ∀ ip ∈ root_servers.take k, net ip 53 qp recv_timeout_sec = none)
    (hsucc : net (root_servers.getD k "") 53 qp recv_timeout_sec = some d) :
    root_servers.length = 13 ∧
    (recursive_resolve c net g resolver rnd q qt qc).contacted = root_servers.take (k + 1) ∧
    (recursive_resolve c net g resolver rnd q qt qc).contacted.Nodup ∧
    ∀ ip ∈ root_servers.drop (k + 1),
      ip ∉ (recursive_resolve c net g resolver rnd q qt qc).contacted := by
  have hdec := take_getD_drop "" root_servers k hk
  have hloop : attemptLoop net qp root_servers =
      (some (d.take RESPONSE_BUF_SIZE), root_servers.take k ++ [root_servers.getD k ""]) := by
    conv_lhs => rw [← hdec]
    exact attemptLoop_first_success net qp _ _ _ d hfail hsucc
  have htake := (take_succ_getD "" root_servers k hk).symm
  have hcont : (recursive_resolve c net g resolver rnd q qt qc).contacted =
      root_servers.take (k + 1) := by
    rw [recursive_resolve_contacted c net g resolver rnd q qt qc qp hb, hloop, ← htake]
  have hnd : root_servers.Nodup := by decide
  refine ⟨rfl, hcont, ?_, ?_⟩
  · rw [hcont]
    exact List.Nodup.sublist (List.take_sublist _ _) hnd
  · intro ip hip hmem
    rw [hcont] at hmem
    exact List.disjoint_take_drop hnd (Nat.le_refl (k + 1)) hmem hip

/-- C4 witness: with the first server failing and the second answering,
exactly the first two root servers are contacted. -/
theorem knot_first_success_stops_witness :
    (recursive_resolve parseFailCodec netSecondOk [] ⟨false, 5000, none⟩ 0 "example.com" 1 1).contacted
      = root_servers.take 2 :=
  (knot_first_success_stops parseFailCodec netSecondOk [] ⟨false, 5000, none⟩ 0 "example.com" 1 1
    exampleQuery 1 [7] rfl (by decide) (by decide) (by decide)).2.1

/-- C5.  A NULL resolver context or a NULL qname is rejected by the guard of
knot_resolver_resolve: the "Invalid parameters" error result, no server
contacted, no query built.  An empty (non-NULL) qname is not caught by that
guard; it yields an error result with no wire and rcode SERVFAIL(2) and no
server contacted because the codec's name encoding (libknot's
knot_dname_from_str) rejects the empty string, hypothesis hd. -/
theorem knot_input_validation (c : Codec) (net : Net) (g : List Nat) (rnd : Nat)
    (ropt : Option Resolver) (r : Resolver) (q : Option String) (qt qc : Nat)
    (hd : c.dnameOk "" = false) :
    knot_resolver_resolve c net g rnd none q qt qc =
      ⟨create_error_result (some "Invalid parameters"), [], none⟩ ∧
    knot_resolver_resolve c net g rnd ropt none qt qc =
      ⟨create_error_result (some "Invalid parameters"), [], none⟩ ∧
    ((knot_resolver_resolve c net g rnd (some r) (some "") qt qc).result.wire = none ∧
     (knot_resolver_resolve c net g rnd (some r) (some "") qt qc).result.rcode = 2 ∧
     (knot_resolver_resolve c net g rnd (some r) (some "") qt qc).result.error_msg ≠ none ∧
     (knot_resolver_resolve c net g rnd (some r) (some "") qt qc).contacted = []) := by
  refine ⟨rfl, ?_, ?_⟩
  · cases ropt <;> rfl
  · have hbuild : ∃ msg, buildQuery c rnd "" qt qc = .error msg := by
      cases hc : c.pktNewOk
      · exact ⟨"Failed to create query packet", by simp [buildQuery, hc]⟩
      · exact ⟨"Invalid domain name", by simp [buildQuery, hc, hd]⟩
    obtain ⟨msg, hmsg⟩ := hbuild
    show (recursive_resolve c net g r rnd "" qt qc).result.wire = none ∧
      (recursive_resolve c net g r rnd "" qt qc).result.rcode = 2 ∧
      (recursive_resolve c net g r rnd "" qt qc).result.error_msg ≠ none ∧
      (recursive_resolve c net g r rnd "" qt qc).contacted = []
    unfold recursive_resolve
    rw [hmsg]
    exact ⟨rfl, rfl, by simp [create_error_result], rfl⟩

/-- C5 witness: a NULL qname is rejected, and an empty qname contacts no
server. -/
theorem knot_input_validation_witness :
    knot_resolver_resolve parseFailCodec netAllFail [] 0 (some ⟨true, 100, none⟩) none 1 1 =
      ⟨create_error_result (some "Invalid parameters"), [], none⟩ ∧
    (knot_resolver_resolve parseFailCodec netAllFail [] 0 (some ⟨true, 100, none⟩)
        (some "") 1 1).contacted = [] :=
  ⟨(knot_input_validation parseFailCodec netAllFail [] 0 (some ⟨true, 100, none⟩)
      ⟨true, 100, none⟩ (some "x") 1 1 rfl).2.1,
   (knot_input_validation parseFailCodec netAllFail [] 0 (some ⟨true, 100, none⟩)
      ⟨true, 100, none⟩ (some "x") 1 1 rfl).2.2.2.2.2⟩

/-- C6.  The query built by a resolution call is identical whether the
context has dnssec_enabled true or false, and whenever the codec can
construct and insert the OPT pseudo-record, the built query carries it. -/
theorem knot_opt_unconditional (c : Codec) (net : Net) (g : List Nat) (rnd tm : Nat)
    (rh : Option String) (q : String) (qt qc : Nat) :
    (recursive_resolve c net g ⟨true, tm, rh⟩ rnd q qt qc).builtQuery =
      (recursive_resolve c net g ⟨false, tm, rh⟩ rnd q qt qc).builtQuery ∧
    (c.optRrOk = true → c.optPutOk = true →
      ∀ qp, buildQuery c rnd q qt qc = .ok qp → KNOT_RRTYPE_OPT ∈ qp.rrs) := by
  constructor
  · rw [recursive_resolve_builtQuery, recursive_resolve_builtQuery]
  · intro ho hpu qp hqp
    unfold buildQuery at hqp
    split at hqp
    · simp at hqp
    · split at hqp
      · simp at hqp
      · split at hqp
        · simp at hqp
        · cases hqp
          simp [ho, hpu]

/-- C6 witness: with a fully succeeding codec the OPT record is in the built
query, for both values of dnssec_enabled. -/
theorem knot_opt_unconditional_witness :
    (recursive_resolve parseFailCodec netAllFail [] ⟨true, 5000, none⟩ 0 "example.com" 1 1).builtQuery =
      (recursive_resolve parseFailCodec netAllFail [] ⟨false, 5000, none⟩ 0 "example.com" 1 1).builtQuery ∧
    KNOT_RRTYPE_OPT ∈ exampleQuery.rrs :=
  ⟨(knot_opt_unconditional parseFailCodec netAllFail [] 0 5000 none "example.com" 1 1).1,
   (knot_opt_unconditional parseFailCodec netAllFail [] 0 5000 none "example.com" 1 1).2
     rfl rfl exampleQuery rfl⟩

/-- C7.  The receive timeout of every Transport attempt is the fixed 5
seconds (never the context's timeout_ms), and two contexts differing only in
timeout_ms produce identical resolution behavior. -/
theorem knot_timeout_independent (c : Codec) (net : Net) (g : List Nat) (rnd : Nat)
    (d : Bool) (rh : Option String) (tm₁ tm₂ : Nat) (qn : Option String) (qt qc : Nat) :
    recv_timeout_sec = 5 ∧
    (∀ ip port query len, send_dns_query net ip port query len =
      (net ip port query 5).map (fun dat => dat.take len)) ∧
    knot_resolver_resolve c net g rnd (some ⟨d, tm₁, rh⟩) qn qt qc =
      knot_resolver_resolve c net g rnd (some ⟨d, tm₂, rh⟩) qn qt qc := by
  refine ⟨rfl, fun _ _ _ _ => rfl, ?_⟩
  cases qn with
  | none => rfl
  | some q => rfl

/-- C8.  The bogus field of every result, on every path of the resolver, is
false. -/
theorem knot_bogus_always_false (c : Codec) (net : Net) (g : List Nat) (rnd : Nat)
    (resolver : Option Resolver) (qname : Option String) (qt qc : Nat) :
    (knot_resolver_resolve c net g rnd resolver qname qt qc).result.bogus = false := by
  rcases resolve_cases c net g rnd resolver qname qt qc with ⟨msg, h⟩ | ⟨buf, pkt, s, hp, h⟩ <;>
    rw [h] <;> rfl

/-- C9.  Every code present in the type (resp. class) table maps to its
documented mnemonic, and every code not in the table maps to "UNKNOWN"; both
functions are total Lean functions. -/
theorem knot_registry_lookup :
    (∀ p ∈ qtype_map, knot_qtype_to_string p.1 = p.2) ∧
    (∀ code : Nat, code ∉ qtype_map.map Prod.fst → knot_qtype_to_string code = "UNKNOWN") ∧
    (∀ p ∈ qclass_map, knot_qclass_to_string p.1 = p.2) ∧
    (∀ code : Nat, code ∉ qclass_map.map Prod.fst → knot_qclass_to_string code = "UNKNOWN") := by
  refine ⟨by decide, fun code hc => lookupName_not_mem _ _ hc,
    by decide, fun code hc => lookupName_not_mem _ _ hc⟩

/-- C9 witness: lookups of known codes and of codes outside the tables. -/
theorem knot_registry_lookup_witness :
    knot_qtype_to_string 1 = "A" ∧ knot_qtype_to_string 999 = "UNKNOWN" ∧
    knot_qclass_to_string 3 = "CH" ∧ knot_qclass_to_string 999 = "UNKNOWN" :=
  ⟨knot_registry_lookup.1 (1, "A") (by decide),
   knot_registry_lookup.2.1 999 (by decide),
   knot_registry_lookup.2.2.1 (3, "CH") (by decide),
   knot_registry_lookup.2.2.2 999 (by decide)⟩

/-- C10.  Freeing a NULL result performs no action; freeing a non-NULL
result frees the wire buffer exactly when present, the error message exactly
when present, and always the result object itself. -/
theorem knot_result_free_safe :
    knot_resolve_result_free none = [] ∧
    ∀ r : ResolveResult,
      (FreeAction.freeWire ∈ knot_resolve_result_free (some r) ↔ r.wire.isSome = true) ∧
      (FreeAction.freeErrorMsg ∈ knot_resolve_result_free (some r) ↔ r.error_msg.isSome = true) ∧
      FreeAction.freeResult ∈ knot_resolve_result_free (some r) := by
  refine ⟨rfl, fun r => ?_⟩
  cases hw : r.wire.isSome <;> cases he : r.error_msg.isSome <;>
    simp [knot_resolve_result_free, hw, he]

end KnotResolver
